import Mathlib

/-!
Shallow embedding of the customs duty calculation engine of the B-Class
backend (src/backend/server.py): the alcohol duty module
(ALCOHOL_RATES, calculate_alcohol_duties) and the vehicle duty module
(VEHICLE_DUTY_RATES, determine_vehicle_duty_rate,
calculate_environmental_levy, calculate_processing_fee,
calculate_vehicle_duties).

Modelling conventions:
* Python floats are modelled as exact rationals (ℚ); all the constants in
  the source are exact decimals.
* Python round(x, n) rounds half to even; roundHalfEven mirrors that on ℚ.
* Values the handlers obtain impurely (datetime.now().year, the uuid4 id,
  the created_at timestamp, the authenticated user id) are passed as
  explicit parameters, so the handlers become pure functions of all of
  their actual inputs.
* Optional dict keys (duty_per_imperial_gallon, min_cc, max_value, ...)
  become Option fields; an infinite float bound is the `none` case of the
  respective Option, matching the tier.get defaults in the source.
* The presentation-only strings calculation_steps and excise_calculation
  of the alcohol record are not modelled; every numeric field and every
  other output field is.
-/

namespace BClass

/-- Round a rational to the nearest integer, ties to even, as the Python
built-in round does. -/
def roundHalfEven (x : ℚ) : ℤ :=
  let f : ℤ := Int.floor x
  let r : ℚ := x - f
  if r < 1/2 then f
  else if 1/2 < r then f + 1
  else if f % 2 = 0 then f else f + 1

/-- Python round(x, 2). -/
def round2 (x : ℚ) : ℚ := roundHalfEven (x * 100) / 100

/-- Python round(x, 4). -/
def round4 (x : ℚ) : ℚ := roundHalfEven (x * 10000) / 10000

/-- Display of a duty rate as in the source f-strings: the rate times 100
rounded to an integer, with a percent sign. -/
def pctString (r : ℚ) : String := toString (roundHalfEven (r * 100)) ++ "%"

/-- The AlcoholType str-enum of server.py (the five values accepted by the
AlcoholCalculationRequest pydantic model). -/
inductive AlcoholType
  | wine
  | beer
  | spirits
  | liqueur
  | other
deriving DecidableEq, Repr

/-- The string value of an AlcoholType member. -/
def AlcoholType.value : AlcoholType → String
  | .wine => "wine"
  | .beer => "beer"
  | .spirits => "spirits"
  | .liqueur => "liqueur"
  | .other => "other"

/-- One entry of the ALCOHOL_RATES table. -/
structure AlcoholRates where
  hs_code : String
  hs_description : String
  import_duty_rate : ℚ
  duty_per_imperial_gallon : Option ℚ := none
  duty_per_proof_gallon : Option ℚ := none
  duty_type : String
  requires_permit : Bool
deriving DecidableEq, Repr

/-- ALCOHOL_RATES of server.py, all thirteen keys. -/
def ALCOHOL_RATES : List (String × AlcoholRates) :=
  [ ("wine",
     { hs_code := "2204.2190",
       hs_description := "Wine of fresh grapes (Claret, Shiraz, Port, Sherry)",
       import_duty_rate := 1/2, duty_type := "ad_valorem", requires_permit := false }),
    ("beer",
     { hs_code := "2203.0090", hs_description := "Beer made from malt",
       import_duty_rate := 1/10, duty_per_imperial_gallon := some 10,
       duty_type := "specific_plus_ad_valorem", requires_permit := false }),
    ("ale",
     { hs_code := "2203.0010", hs_description := "Ale",
       import_duty_rate := 1/10, duty_per_imperial_gallon := some 10,
       duty_type := "specific_plus_ad_valorem", requires_permit := false }),
    ("stout",
     { hs_code := "2203.0030", hs_description := "Stout",
       import_duty_rate := 1/10, duty_per_imperial_gallon := some 10,
       duty_type := "specific_plus_ad_valorem", requires_permit := false }),
    ("spirits",
     { hs_code := "2208.4010",
       hs_description := "Rum and spirits by distillation (Whisky, Vodka, Gin, Brandy)",
       import_duty_rate := 0, duty_per_proof_gallon := some 15,
       duty_type := "proof_gallon", requires_permit := true }),
    ("whisky",
     { hs_code := "2208.3010", hs_description := "Whisky (Bourbon/Scotch)",
       import_duty_rate := 0, duty_per_proof_gallon := some 15,
       duty_type := "proof_gallon", requires_permit := true }),
    ("vodka",
     { hs_code := "2208.6000", hs_description := "Vodka",
       import_duty_rate := 0, duty_per_proof_gallon := some 15,
       duty_type := "proof_gallon", requires_permit := true }),
    ("rum",
     { hs_code := "2208.4010", hs_description := "Rum",
       import_duty_rate := 0, duty_per_proof_gallon := some 15,
       duty_type := "proof_gallon", requires_permit := true }),
    ("brandy",
     { hs_code := "2208.2010", hs_description := "Brandy/Cognac",
       import_duty_rate := 0, duty_per_proof_gallon := some 15,
       duty_type := "proof_gallon", requires_permit := true }),
    ("liqueur",
     { hs_code := "2208.7000", hs_description := "Liqueurs and cordials",
       import_duty_rate := 0, duty_per_imperial_gallon := some 15,
       duty_type := "imperial_gallon", requires_permit := true }),
    ("tequila",
     { hs_code := "2208.9090", hs_description := "Tequila",
       import_duty_rate := 0, duty_per_imperial_gallon := some 15,
       duty_type := "imperial_gallon", requires_permit := true }),
    ("bitters",
     { hs_code := "2208.7000", hs_description := "Bitters",
       import_duty_rate := 0, duty_per_imperial_gallon := some 15,
       duty_type := "imperial_gallon", requires_permit := true }),
    ("other",
     { hs_code := "2208.9090", hs_description := "Other spirituous beverages",
       import_duty_rate := 0, duty_per_imperial_gallon := some 15,
       duty_type := "imperial_gallon", requires_permit := true }) ]

/-- The fallback entry ALCOHOL_RATES["other"]. -/
def alcoholOtherRates : AlcoholRates :=
  { hs_code := "2208.9090", hs_description := "Other spirituous beverages",
    import_duty_rate := 0, duty_per_imperial_gallon := some 15,
    duty_type := "imperial_gallon", requires_permit := true }

/-- ALCOHOL_RATES.get(key, ALCOHOL_RATES["other"]) of server.py line 2150. -/
def alcoholRatesGet (key : String) : AlcoholRates :=
  (ALCOHOL_RATES.lookup key).getD alcoholOtherRates

/-- Conversion constant: 1 liter = 0.22 imperial gallons. -/
def LITERS_TO_IMPERIAL_GALLON : ℚ := 22/100

/-- Conversion constant: multiply percent ABV by 1.75 for British Proof. -/
def ABV_TO_BRITISH_PROOF : ℚ := 7/4

/-- VAT_RATE = 0.10. -/
def VAT_RATE : ℚ := 1/10

/-- LICENSE_FEE_BASE = 50.00. -/
def LICENSE_FEE_BASE : ℚ := 50

/-- The AlcoholCalculationRequest pydantic model. The field types mirror
the declared annotations; the model declares no range constraint on any
numeric field. -/
structure AlcoholCalculationRequest where
  product_name : String
  alcohol_type : AlcoholType
  volume_ml : ℚ
  alcohol_percentage : ℚ
  quantity : ℤ
  cif_value : ℚ
  country_of_origin : String
  brand_label : Option String := none
  has_liquor_license : Bool := false
deriving DecidableEq, Repr

/-- The unrounded intermediate values computed by the body of
calculate_alcohol_duties (server.py lines 2150-2232), before the record is
assembled with rounding. -/
structure AlcoholOutcome where
  rates : AlcoholRates
  total_volume_liters : ℚ
  imperial_gallons : ℚ
  duty_type : String
  import_duty : ℚ
  excise_duty : ℚ
  proof_gallons : ℚ
  british_proof_strength : ℚ
  vat_base : ℚ
  vat : ℚ
  license_fee : ℚ
  total_landed_cost : ℚ
  pure_alcohol_liters : ℚ
  warnings : List String
deriving DecidableEq, Repr

/-- Straight-line translation of the calculation in calculate_alcohol_duties
(server.py lines 2150-2232). -/
def alcoholCompute (request : AlcoholCalculationRequest) : AlcoholOutcome :=
  let rates := alcoholRatesGet request.alcohol_type.value
  let volume_per_unit_liters := request.volume_ml / 1000
  let total_volume_liters := volume_per_unit_liters * (request.quantity : ℚ)
  let imperial_gallons := total_volume_liters * LITERS_TO_IMPERIAL_GALLON
  let duty_type := rates.duty_type
  let step : ℚ × ℚ × ℚ × ℚ :=
    if duty_type = "proof_gallon" then
      let british_proof_strength := request.alcohol_percentage * ABV_TO_BRITISH_PROOF
      let proof_gallons := imperial_gallons * british_proof_strength
      (0, proof_gallons * rates.duty_per_proof_gallon.getD 0,
       proof_gallons, british_proof_strength)
    else if duty_type = "imperial_gallon" then
      (0, imperial_gallons * rates.duty_per_imperial_gallon.getD 0, 0, 0)
    else if duty_type = "specific_plus_ad_valorem" then
      (request.cif_value * rates.import_duty_rate,
       imperial_gallons * rates.duty_per_imperial_gallon.getD 0, 0, 0)
    else
      (request.cif_value * rates.import_duty_rate, 0, 0, 0)
  let import_duty := step.1
  let excise_duty := step.2.1
  let proof_gallons := step.2.2.1
  let british_proof_strength := step.2.2.2
  let vat_base := request.cif_value + import_duty + excise_duty
  let vat := vat_base * VAT_RATE
  let license_fee : ℚ :=
    if request.has_liquor_license then
      if 24 < request.quantity then
        LICENSE_FEE_BASE + ((request.quantity - 24 : ℤ) : ℚ) * (1/2)
      else LICENSE_FEE_BASE
    else 0
  let total_landed_cost := request.cif_value + import_duty + excise_duty + vat + license_fee
  let pure_alcohol_liters := total_volume_liters * (request.alcohol_percentage / 100)
  let warnings :=
    (if 40 < request.alcohol_percentage then
       ["High ABV product (>40%) - verify proof gallon calculation"] else []) ++
    (if 10 < total_volume_liters ∧ ¬request.has_liquor_license then
       ["Volume exceeds personal use allowance - liquor license required"] else []) ++
    (if rates.requires_permit then
       ["Import permit required for " ++ request.alcohol_type.value] else []) ++
    (if 5000 < request.cif_value then
       ["High value shipment - may require additional documentation"] else [])
  { rates := rates, total_volume_liters := total_volume_liters,
    imperial_gallons := imperial_gallons, duty_type := duty_type,
    import_duty := import_duty, excise_duty := excise_duty,
    proof_gallons := proof_gallons,
    british_proof_strength := british_proof_strength,
    vat_base := vat_base, vat := vat, license_fee := license_fee,
    total_landed_cost := total_landed_cost,
    pure_alcohol_liters := pure_alcohol_liters, warnings := warnings }

/-- The nested breakdown dict of the alcohol calculation record. -/
structure AlcoholBreakdown where
  cif_value : ℚ
  import_duty : ℚ
  excise_duty : ℚ
  vat : ℚ
  license_fee : ℚ
  total : ℚ
deriving DecidableEq, Repr

/-- The persisted/returned alcohol calculation record (server.py lines
2236-2275), minus the presentation strings calculation_steps and
excise_calculation. -/
structure AlcoholCalculationRecord where
  id : String
  user_id : String
  product_name : String
  alcohol_type : AlcoholType
  hs_code : String
  hs_description : String
  quantity : ℤ
  volume_ml : ℚ
  total_volume_liters : ℚ
  imperial_gallons : ℚ
  alcohol_percentage : ℚ
  british_proof_strength : Option ℚ
  proof_gallons : Option ℚ
  pure_alcohol_liters : ℚ
  cif_value : ℚ
  import_duty : ℚ
  import_duty_rate : String
  excise_duty : ℚ
  duty_type : String
  vat : ℚ
  vat_rate : String
  license_fee : ℚ
  total_landed_cost : ℚ
  breakdown : AlcoholBreakdown
  warnings : List String
  requires_permit : Bool
  country_of_origin : String
  brand_label : Option String
  created_at : String
deriving DecidableEq, Repr

/-- The POST /alcohol/calculate handler body: computes the duties and
assembles the calculation record. The authenticated user id, the
uuid4-generated record id and the created_at timestamp are explicit
parameters. -/
def calculate_alcohol_duties (request : AlcoholCalculationRequest)
    (user_id calc_id created_at : String) : AlcoholCalculationRecord :=
  let o := alcoholCompute request
  { id := calc_id, user_id := user_id,
    product_name := request.product_name,
    alcohol_type := request.alcohol_type,
    hs_code := o.rates.hs_code, hs_description := o.rates.hs_description,
    quantity := request.quantity, volume_ml := request.volume_ml,
    total_volume_liters := round2 o.total_volume_liters,
    imperial_gallons := round4 o.imperial_gallons,
    alcohol_percentage := request.alcohol_percentage,
    british_proof_strength :=
      if o.british_proof_strength ≠ 0 then some (round2 o.british_proof_strength) else none,
    proof_gallons :=
      if o.proof_gallons ≠ 0 then some (round4 o.proof_gallons) else none,
    pure_alcohol_liters := round4 o.pure_alcohol_liters,
    cif_value := round2 request.cif_value,
    import_duty := round2 o.import_duty,
    import_duty_rate := pctString o.rates.import_duty_rate,
    excise_duty := round2 o.excise_duty,
    duty_type := o.duty_type,
    vat := round2 o.vat, vat_rate := pctString VAT_RATE,
    license_fee := round2 o.license_fee,
    total_landed_cost := round2 o.total_landed_cost,
    breakdown :=
      { cif_value := round2 request.cif_value,
        import_duty := round2 o.import_duty,
        excise_duty := round2 o.excise_duty,
        vat := round2 o.vat,
        license_fee := round2 o.license_fee,
        total := round2 o.total_landed_cost },
    warnings := o.warnings,
    requires_permit := o.rates.requires_permit,
    country_of_origin := request.country_of_origin,
    brand_label := request.brand_label,
    created_at := created_at }

/-- A request body for POST /alcohol/calculate before enum validation: the
category arrives as an arbitrary string. -/
structure RawAlcoholRequest where
  product_name : String
  alcohol_type : String
  volume_ml : ℚ
  alcohol_percentage : ℚ
  quantity : ℤ
  cif_value : ℚ
  country_of_origin : String
  brand_label : Option String := none
  has_liquor_license : Bool := false
deriving DecidableEq, Repr

/-- Membership of a string in the AlcoholType str-enum. -/
def parseAlcoholType (s : String) : Option AlcoholType :=
  if s = "wine" then some .wine
  else if s = "beer" then some .beer
  else if s = "spirits" then some .spirits
  else if s = "liqueur" then some .liqueur
  else if s = "other" then some .other
  else none

/-- The validation the AlcoholCalculationRequest pydantic model performs on
the declared fields: the only constraint is that alcohol_type is one of
the five AlcoholType values (an unknown value is rejected with a
structured 422 error naming the field); no numeric field carries a range
constraint, so any quantity, strength or CIF value is accepted as is. -/
def validateAlcoholRequest (raw : RawAlcoholRequest) :
    Except String AlcoholCalculationRequest :=
  match parseAlcoholType raw.alcohol_type with
  | none => .error "alcohol_type"
  | some t =>
      .ok { product_name := raw.product_name, alcohol_type := t,
            volume_ml := raw.volume_ml,
            alcohol_percentage := raw.alcohol_percentage,
            quantity := raw.quantity, cif_value := raw.cif_value,
            country_of_origin := raw.country_of_origin,
            brand_label := raw.brand_label,
            has_liquor_license := raw.has_liquor_license }

/-- The VehicleType str-enum of server.py. -/
inductive VehicleType
  | electric
  | hybrid
  | gasoline
  | diesel
  | commercial
deriving DecidableEq, Repr

/-- One tier dict of VEHICLE_DUTY_RATES. Absent keys are `none`; the
resolver reads them through get with defaults 0 for minima and infinity
for maxima, so an explicitly infinite bound is also modelled as `none`.
The min_weight/max_weight keys of the commercial tiers are carried but,
exactly as in the source resolver, never read. -/
structure VehicleTier where
  min_cc : Option ℚ := none
  max_cc : Option ℚ := none
  min_value : Option ℚ := none
  max_value : Option ℚ := none
  min_weight : Option ℚ := none
  max_weight : Option ℚ := none
  rate : ℚ
  description : String
deriving DecidableEq, Repr

/-- One category entry of VEHICLE_DUTY_RATES. -/
structure VehicleRatesEntry where
  hs_code : String
  hs_description : String
  tiers : List VehicleTier
deriving DecidableEq, Repr

/-- VEHICLE_DUTY_RATES of server.py (Bahamas 2024). Since the request
model types vehicle_type as the VehicleType enum, the dict lookup with
gasoline fallback always finds its key, so the table is indexed by the
enum directly. -/
def VEHICLE_DUTY_RATES : VehicleType → VehicleRatesEntry
  | .electric =>
    { hs_code := "8703.80",
      hs_description := "Motor vehicles with only electric motor for propulsion",
      tiers := [
        { max_value := some 50000, rate := 1/10, description := "Value up to $50,000" },
        { rate := 1/4, description := "Value over $50,000" } ] }
  | .hybrid =>
    { hs_code := "8703.40",
      hs_description := "Vehicles with both spark-ignition engine and electric motor",
      tiers := [
        { max_value := some 50000, rate := 1/10, description := "Value up to $50,000" },
        { rate := 1/4, description := "Value over $50,000" } ] }
  | .gasoline =>
    { hs_code := "8703.23",
      hs_description := "Motor cars with spark-ignition engine",
      tiers := [
        { max_cc := some 1500, rate := 9/20, description := "Engine under 1.5L (1500cc)" },
        { min_cc := some 1500, max_cc := some 2000, max_value := some 50000,
          rate := 9/20, description := "1.5L to 2.0L (valued ≤ $50k)" },
        { min_cc := some 1500, max_cc := some 2000, min_value := some 50000,
          rate := 13/20, description := "1.5L to 2.0L (valued > $50k)" },
        { min_cc := some 2000, rate := 13/20, description := "Engine over 2.0L (2000cc)" } ] }
  | .diesel =>
    { hs_code := "8703.32",
      hs_description := "Motor cars with compression-ignition engine (diesel)",
      tiers := [
        { max_cc := some 1500, rate := 9/20, description := "Engine under 1.5L" },
        { min_cc := some 1500, max_cc := some 2000, max_value := some 50000,
          rate := 9/20, description := "1.5L to 2.0L (valued ≤ $50k)" },
        { min_cc := some 1500, max_cc := some 2000, min_value := some 50000,
          rate := 13/20, description := "1.5L to 2.0L (valued > $50k)" },
        { min_cc := some 2000, rate := 13/20, description := "Engine over 2.0L" } ] }
  | .commercial =>
    { hs_code := "8704.21",
      hs_description := "Motor vehicles for transport of goods (trucks, heavy equipment)",
      tiers := [
        { max_weight := some 5000, rate := 13/20, description := "GVW up to 5 tons" },
        { min_weight := some 5000, rate := 17/20, description := "GVW over 5 tons (heavy equipment)" } ] }

/-- Comparison of x <= bound where the bound may be infinite (`none`). -/
def leMax (x : ℚ) : Option ℚ → Prop
  | none => True
  | some m => x ≤ m

instance (x : ℚ) (b : Option ℚ) : Decidable (leMax x b) := by
  unfold leMax; cases b <;> infer_instance

/-- Comparison of x < bound where the bound may be infinite (`none`). -/
def ltMax (x : ℚ) : Option ℚ → Prop
  | none => True
  | some m => x < m

instance (x : ℚ) (b : Option ℚ) : Decidable (ltMax x b) := by
  unfold ltMax; cases b <;> infer_instance

/-- The per-tier match test of determine_vehicle_duty_rate (server.py
lines 3579-3601): for electric/hybrid only the value conditions of the
two branches of the if/elif are evaluated; otherwise the engine and value
conditions are conjoined. -/
def tierMatches (vehicle_type : VehicleType) (engine_cc : Option ℤ)
    (cif_value : ℚ) (tier : VehicleTier) : Prop :=
  let min_cc := tier.min_cc.getD 0
  let min_value := tier.min_value.getD 0
  if vehicle_type = .electric ∨ vehicle_type = .hybrid then
    (leMax cif_value tier.max_value ∧ min_value < cif_value) ∨
      (min_value = 0 ∧ leMax cif_value tier.max_value)
  else
    ((match engine_cc with
      | none => True
      | some cc =>
          (min_cc ≤ (cc : ℚ) ∧ ltMax (cc : ℚ) tier.max_cc) ∨
            (min_cc ≤ (cc : ℚ) ∧ tier.max_cc = none)) ∧
     ((min_value < cif_value ∧ leMax cif_value tier.max_value) ∨
        (min_value = 0 ∧ leMax cif_value tier.max_value)))

instance (vt : VehicleType) (cc : Option ℤ) (cif : ℚ) (t : VehicleTier) :
    Decidable (tierMatches vt cc cif t) := by
  unfold tierMatches; cases cc <;> dsimp only [] <;> split <;> infer_instance

/-- First-matching-tier iteration of determine_vehicle_duty_rate; the
empty list falls through to the silent default (0.65, "Default rate") of
server.py line 3604. -/
def resolveTiers (vehicle_type : VehicleType) (engine_cc : Option ℤ)
    (cif_value : ℚ) : List VehicleTier → ℚ × String
  | [] => (13/20, "Default rate")
  | tier :: rest =>
      if tierMatches vehicle_type engine_cc cif_value tier then
        (tier.rate, tier.description)
      else resolveTiers vehicle_type engine_cc cif_value rest

/-- determine_vehicle_duty_rate (server.py lines 3575-3604). -/
def determine_vehicle_duty_rate (vehicle_type : VehicleType)
    (engine_cc : Option ℤ) (cif_value : ℚ) : ℚ × String :=
  resolveTiers vehicle_type engine_cc cif_value (VEHICLE_DUTY_RATES vehicle_type).tiers

/-- Three-digit zero padding for comma grouping. -/
def padTo3 (m : ℕ) : String :=
  if m < 10 then "00" ++ toString m
  else if m < 100 then "0" ++ toString m
  else toString m

/-- Two-digit zero padding for cents. -/
def padTo2 (m : ℕ) : String :=
  if m < 10 then "0" ++ toString m else toString m

/-- Decimal digits of a natural number grouped in threes by commas. -/
def commaGroup (n : ℕ) : String :=
  if _h : n < 1000 then toString n
  else commaGroup (n / 1000) ++ "," ++ padTo3 (n % 1000)
termination_by n
decreasing_by
  exact Nat.div_lt_self (by omega) (by norm_num)

/-- Money formatting as in the source f-strings: two decimals, thousands
separated by commas. -/
def fmtMoney (x : ℚ) : String :=
  let n := roundHalfEven (x * 100)
  let u := n.natAbs
  (if n < 0 then "-" else "") ++ commaGroup (u / 100) ++ "." ++ padTo2 (u % 100)

/-- One-decimal formatting as in the source f-strings. -/
def fmt1 (x : ℚ) : String :=
  let t := roundHalfEven (x * 10)
  let u := t.natAbs
  (if t < 0 then "-" else "") ++ toString (u / 10) ++ "." ++ toString (u % 10)

/-- VEHICLE_VAT_RATE = 0.10. -/
def VEHICLE_VAT_RATE : ℚ := 1/10

/-- ENVIRONMENTAL_LEVY_NEW = 250.00 (flat, new/standard vehicles). -/
def ENVIRONMENTAL_LEVY_NEW : ℚ := 250

/-- ENVIRONMENTAL_LEVY_OVER_10_YEARS = 0.20 (share of CIF + duty). -/
def ENVIRONMENTAL_LEVY_OVER_10_YEARS : ℚ := 1/5

/-- ENVIRONMENTAL_LEVY_ANTIQUE = 200.00 (flat, antique vehicles). -/
def ENVIRONMENTAL_LEVY_ANTIQUE : ℚ := 200

/-- TIRE_LEVY_PER_TIRE = 5.00 ($5 per used tire). -/
def TIRE_LEVY_PER_TIRE : ℚ := 5

/-- PROCESSING_FEE_RATE = 0.01. -/
def PROCESSING_FEE_RATE : ℚ := 1/100

/-- PROCESSING_FEE_MIN = 10.00. -/
def PROCESSING_FEE_MIN : ℚ := 10

/-- PROCESSING_FEE_MAX = 750.00. -/
def PROCESSING_FEE_MAX : ℚ := 750

/-- calculate_processing_fee (server.py lines 3540-3543): 1% of CIF,
clamped to [10, 750]. -/
def calculate_processing_fee (cif_value : ℚ) : ℚ :=
  max PROCESSING_FEE_MIN (min (cif_value * PROCESSING_FEE_RATE) PROCESSING_FEE_MAX)

/-- calculate_environmental_levy (server.py lines 3545-3573), returning
(levy, levy_description, requires_approval, tire_levy). datetime.now().year
is the explicit current_year parameter. -/
def calculate_environmental_levy (year : ℤ) (is_new is_antique : Bool)
    (cif_value import_duty : ℚ) (num_tires : ℤ) (current_year : ℤ) :
    ℚ × String × Bool × ℚ :=
  let vehicle_age := current_year - year
  let main : ℚ × String × Bool :=
    if is_antique then
      (ENVIRONMENTAL_LEVY_ANTIQUE, "Antique/Vintage Vehicle ($200 flat)", true)
    else if 10 < vehicle_age then
      let landed_for_levy := cif_value + import_duty
      (landed_for_levy * ENVIRONMENTAL_LEVY_OVER_10_YEARS,
       "Over 10 years old (20% of $" ++ fmtMoney landed_for_levy ++ ")", true)
    else
      (ENVIRONMENTAL_LEVY_NEW, "Standard Vehicle ($250 flat)", false)
  let tire_levy : ℚ :=
    if ¬is_new ∧ 0 < num_tires then (num_tires : ℚ) * TIRE_LEVY_PER_TIRE else 0
  (main.1, main.2.1, main.2.2, tire_levy)

/-- get_engine_category (server.py lines 3606-3619). -/
def get_engine_category (engine_cc : Option ℤ) (vehicle_type : VehicleType) : String :=
  if vehicle_type = .electric then "Electric Motor"
  else if vehicle_type = .hybrid then "Hybrid (Electric + ICE)"
  else
    match engine_cc with
    | none => "Unknown"
    | some cc =>
        let liters := fmt1 ((cc : ℚ) / 1000)
        if cc < 1500 then "Small (" ++ toString cc ++ "cc / " ++ liters ++ "L)"
        else if cc < 2000 then "Medium (" ++ toString cc ++ "cc / " ++ liters ++ "L)"
        else "Large (" ++ toString cc ++ "cc / " ++ liters ++ "L)"

/-- Python truthiness-plus-comparison test "opt and opt > bound" on an
optional integer field. -/
def optExceeds (m : Option ℤ) (bound : ℤ) : Prop :=
  match m with
  | some v => v ≠ 0 ∧ bound < v
  | none => False

instance (m : Option ℤ) (bound : ℤ) : Decidable (optExceeds m bound) := by
  unfold optExceeds; cases m <;> infer_instance

/-- The VehicleCalculationRequest pydantic model. -/
structure VehicleCalculationRequest where
  vin : Option String := none
  make : String
  model : String
  year : ℤ
  vehicle_type : VehicleType
  body_style : Option String := none
  engine_size_cc : Option ℤ := none
  cif_value : ℚ
  country_of_origin : String
  is_new : Bool := true
  fuel_type : Option String := none
  color : Option String := none
  mileage : Option ℤ := none
  is_first_time_owner : Bool := false
  qualifies_for_concession : Bool := false
  concession_type : Option String := none
  is_antique : Bool := false
  num_tires : ℤ := 4
deriving DecidableEq, Repr

/-- The concessionary-rate if/elif chain of calculate_vehicle_duties
(server.py lines 3638-3656), returning (duty_rate, original_duty_rate,
concessionary_applied, warnings appended so far). The Python equality
test concession_type == "first_vehicle" on an Optional[str] is False for
None, which the Option equality mirrors. -/
def applyConcession (qualifies_for_concession : Bool)
    (concession_type : Option String) (base_rate : ℚ) :
    ℚ × Option ℚ × Bool × List String :=
  if qualifies_for_concession then
    let original := base_rate
    if concession_type = some "first_vehicle" then
      let r := max (base_rate - 1/5) (1/10)
      (r, some original, true,
       ["Concessionary rate applied: First-time vehicle owner (reduced from "
          ++ pctString original ++ " to " ++ pctString r ++ ")"])
    else if concession_type = some "returning_resident" then
      let r := max (base_rate - 3/20) (1/10)
      (r, some original, true,
       ["Concessionary rate applied: Returning resident (reduced from "
          ++ pctString original ++ " to " ++ pctString r ++ ")"])
    else if concession_type = some "disabled" then
      (1/10, some original, true,
       ["Concessionary rate applied: Disabled person exemption (10%)"])
    else (base_rate, some original, false, [])
  else (base_rate, none, false, [])

/-- The unrounded intermediate values computed by the body of
calculate_vehicle_duties (server.py lines 3628-3705), before the record is
assembled with rounding. -/
structure VehicleOutcome where
  duty_rate : ℚ
  duty_description : String
  original_duty_rate : Option ℚ
  savings : Option ℚ
  concessionary_applied : Bool
  import_duty : ℚ
  processing_fee : ℚ
  environmental_levy : ℚ
  levy_description : String
  requires_approval : Bool
  tire_levy : ℚ
  landed_cost : ℚ
  vat : ℚ
  total_landed_cost : ℚ
  warnings : List String
deriving DecidableEq, Repr

/-- Straight-line translation of the calculation in calculate_vehicle_duties
(server.py lines 3628-3705): rate resolution, concession override, duty
stack, savings and warnings. -/
def vehicleCompute (request : VehicleCalculationRequest) (current_year : ℤ) :
    VehicleOutcome :=
  let base := determine_vehicle_duty_rate request.vehicle_type
    request.engine_size_cc request.cif_value
  let duty_description := base.2
  let con := applyConcession request.qualifies_for_concession
    request.concession_type base.1
  let duty_rate := con.1
  let original_duty_rate := con.2.1
  let concessionary_applied := con.2.2.1
  let concession_warnings := con.2.2.2
  let import_duty := request.cif_value * duty_rate
  let processing_fee := calculate_processing_fee request.cif_value
  let env := calculate_environmental_levy request.year request.is_new
    request.is_antique request.cif_value import_duty request.num_tires current_year
  let environmental_levy := env.1
  let levy_description := env.2.1
  let requires_approval := env.2.2.1
  let tire_levy := env.2.2.2
  let landed_cost := request.cif_value + import_duty + environmental_levy
    + processing_fee + tire_levy
  let vat := landed_cost * VEHICLE_VAT_RATE
  let total_landed_cost := landed_cost + vat
  let savings : Option ℚ :=
    match original_duty_rate with
    | some o =>
        if concessionary_applied = true ∧ o ≠ 0 then
          some (request.cif_value * o - import_duty)
        else none
    | none => none
  let warnings := concession_warnings
    ++ (if requires_approval then
          ["⚠️ Ministry of Finance approval required for this vehicle category"] else [])
    ++ (if request.year < current_year - 10 then
          ["Vehicle is " ++ toString (current_year - request.year)
             ++ " years old - 20% Environmental Levy applies, Ministry approval required"]
        else [])
    ++ (if ¬request.is_new ∧ optExceeds request.mileage 100000 then
          ["High mileage vehicle - may require pre-import inspection"] else [])
    ++ (if request.vehicle_type = .commercial then
          ["Commercial vehicles may require additional permits and weight certification"]
        else [])
    ++ (if 100000 < request.cif_value then
          ["High-value import - may require additional documentation and insurance verification"]
        else [])
    ++ (if (request.vehicle_type = .gasoline ∨ request.vehicle_type = .diesel) ∧
            optExceeds request.engine_size_cc 3000 then
          ["Large engine vehicles face higher duties and environmental levies"] else [])
  { duty_rate := duty_rate, duty_description := duty_description,
    original_duty_rate := original_duty_rate, savings := savings,
    concessionary_applied := concessionary_applied,
    import_duty := import_duty, processing_fee := processing_fee,
    environmental_levy := environmental_levy,
    levy_description := levy_description,
    requires_approval := requires_approval, tire_levy := tire_levy,
    landed_cost := landed_cost, vat := vat,
    total_landed_cost := total_landed_cost, warnings := warnings }

/-- The nested breakdown dict of the vehicle calculation record. -/
structure VehicleBreakdown where
  cif_value : ℚ
  import_duty : ℚ
  environmental_levy : ℚ
  tire_levy : ℚ
  processing_fee : ℚ
  landed_cost : ℚ
  vat : ℚ
  total : ℚ
deriving DecidableEq, Repr

/-- The persisted/returned vehicle calculation record (server.py lines
3712-3762). -/
structure VehicleCalculationRecord where
  id : String
  user_id : String
  vin : Option String
  make : String
  model : String
  year : ℤ
  vehicle_type : VehicleType
  body_style : Option String
  engine_size_cc : Option ℤ
  engine_category : String
  cif_value : ℚ
  duty_rate : ℚ
  duty_rate_display : String
  import_duty : ℚ
  environmental_levy : ℚ
  environmental_levy_description : String
  tire_levy : ℚ
  processing_fee : ℚ
  processing_fee_description : String
  landed_cost : ℚ
  vat : ℚ
  vat_rate : String
  total_landed_cost : ℚ
  hs_code : String
  hs_description : String
  breakdown : VehicleBreakdown
  warnings : List String
  concessionary_applied : Bool
  original_duty_rate : Option ℚ
  savings : Option ℚ
  country_of_origin : String
  is_new : Bool
  is_antique : Bool
  num_tires : ℤ
  requires_approval : Bool
  fuel_type : Option String
  color : Option String
  mileage : Option ℤ
  concession_type : Option String
  created_at : String
deriving DecidableEq, Repr

/-- The POST /vehicle/calculate handler body: computes the duties and
assembles the calculation record. The wall-clock year, the authenticated
user id, the uuid4-generated record id and the created_at timestamp are
explicit parameters. -/
def calculate_vehicle_duties (request : VehicleCalculationRequest)
    (current_year : ℤ) (user_id calc_id created_at : String) :
    VehicleCalculationRecord :=
  let rates_info := VEHICLE_DUTY_RATES request.vehicle_type
  let o := vehicleCompute request current_year
  { id := calc_id, user_id := user_id,
    vin := request.vin, make := request.make, model := request.model,
    year := request.year, vehicle_type := request.vehicle_type,
    body_style := request.body_style,
    engine_size_cc := request.engine_size_cc,
    engine_category := get_engine_category request.engine_size_cc request.vehicle_type,
    cif_value := round2 request.cif_value,
    duty_rate := o.duty_rate,
    duty_rate_display := pctString o.duty_rate ++ " (" ++ o.duty_description ++ ")",
    import_duty := round2 o.import_duty,
    environmental_levy := round2 o.environmental_levy,
    environmental_levy_description := o.levy_description,
    tire_levy := round2 o.tire_levy,
    processing_fee := round2 o.processing_fee,
    processing_fee_description := "1% of CIF (min $10, max $750)",
    landed_cost := round2 o.landed_cost,
    vat := round2 o.vat,
    vat_rate := pctString VEHICLE_VAT_RATE,
    total_landed_cost := round2 o.total_landed_cost,
    hs_code := rates_info.hs_code,
    hs_description := rates_info.hs_description,
    breakdown :=
      { cif_value := round2 request.cif_value,
        import_duty := round2 o.import_duty,
        environmental_levy := round2 o.environmental_levy,
        tire_levy := round2 o.tire_levy,
        processing_fee := round2 o.processing_fee,
        landed_cost := round2 o.landed_cost,
        vat := round2 o.vat,
        total := round2 o.total_landed_cost },
    warnings := o.warnings,
    concessionary_applied := o.concessionary_applied,
    original_duty_rate := o.original_duty_rate,
    savings :=
      match o.savings with
      | some s => if s ≠ 0 then some (round2 s) else none
      | none => none,
    country_of_origin := request.country_of_origin,
    is_new := request.is_new, is_antique := request.is_antique,
    num_tires := request.num_tires,
    requires_approval := o.requires_approval,
    fuel_type := request.fuel_type, color := request.color,
    mileage := request.mileage,
    concession_type := request.concession_type,
    created_at := created_at }

/-- A vehicle calculation record with the two per-run fresh fields (the
uuid4 id and the created_at timestamp) blanked out; used to state which
part of the record is a pure function of the request. -/
def stripFreshFields (r : VehicleCalculationRecord) : VehicleCalculationRecord :=
  { r with id := "", created_at := "" }

/-- The spirits worked example of the duty guide shipped in the repository
(12 × 750 mL at 40 percent ABV, CIF 540): the input of the documented
spirits scenario. -/
def spiritsScenarioReq : AlcoholCalculationRequest :=
  { product_name := "Rum", alcohol_type := .spirits, volume_ml := 750,
    alcohol_percentage := 40, quantity := 12, cif_value := 540,
    country_of_origin := "Jamaica" }

/-- A licensed wine import: CIF 100, one bottle, liquor license held. -/
def licensedWineReq : AlcoholCalculationRequest :=
  { product_name := "Claret", alcohol_type := .wine, volume_ml := 750,
    alcohol_percentage := 12, quantity := 1, cif_value := 100,
    country_of_origin := "France", has_liquor_license := true }

/-- A raw alcohol request with a negative quantity and an out-of-range
strength percentage but a recognized category. -/
def malformedRawReq : RawAlcoholRequest :=
  { product_name := "Claret", alcohol_type := "wine", volume_ml := 1000,
    alcohol_percentage := 150, quantity := -5, cif_value := 100,
    country_of_origin := "France" }

/-- The validated request the malformed raw request parses to. -/
def malformedReq : AlcoholCalculationRequest :=
  { product_name := "Claret", alcohol_type := .wine, volume_ml := 1000,
    alcohol_percentage := 150, quantity := -5, cif_value := 100,
    country_of_origin := "France" }

/-- A raw alcohol request whose category string is not in the enum. -/
def unknownCategoryRawReq : RawAlcoholRequest :=
  { product_name := "Cider", alcohol_type := "cider", volume_ml := 500,
    alcohol_percentage := 5, quantity := 6, cif_value := 40,
    country_of_origin := "UK" }

/-- A gasoline declaration with a negative engine displacement: an input
no tier predicate of the gasoline schedule covers. -/
def coverageGapReq : VehicleCalculationRequest :=
  { make := "Toyota", model := "Corolla", year := 2024,
    vehicle_type := .gasoline, engine_size_cc := some (-100),
    cif_value := 25000, country_of_origin := "Japan" }

/-- The small-engine gasoline scenario: CIF 25000, 1200 cc. -/
def smallEngineReq : VehicleCalculationRequest :=
  { make := "Honda", model := "Fit", year := 2024,
    vehicle_type := .gasoline, engine_size_cc := some 1200,
    cif_value := 25000, country_of_origin := "Japan" }

/-- An electric vehicle above the 50000 value threshold qualifying for the
first-vehicle concession. -/
def concessionReq : VehicleCalculationRequest :=
  { make := "Tesla", model := "Model S", year := 2024,
    vehicle_type := .electric, cif_value := 60000,
    country_of_origin := "USA", qualifies_for_concession := true,
    concession_type := some "first_vehicle" }

/-- A declaration with qualifies_for_concession set but no recognized
concession type. -/
def unknownConcessionReq : VehicleCalculationRequest :=
  { make := "Nissan", model := "Leaf", year := 2024,
    vehicle_type := .electric, cif_value := 30000,
    country_of_origin := "Japan", qualifies_for_concession := true,
    concession_type := none }

/-- An antique vehicle older than the 10-year threshold. -/
def antiqueReq : VehicleCalculationRequest :=
  { make := "Ford", model := "Model A", year := 1930,
    vehicle_type := .gasoline, engine_size_cc := some 3300,
    cif_value := 40000, country_of_origin := "USA", is_antique := true }

/-- A 2016 gasoline vehicle whose levy branch depends on the wall-clock
year. -/
def agingReq : VehicleCalculationRequest :=
  { make := "Mazda", model := "Demio", year := 2016,
    vehicle_type := .gasoline, engine_size_cc := some 1200,
    cif_value := 10000, country_of_origin := "Japan" }

/-- An electric declaration used to exercise the value-tier threshold. -/
def thresholdReq : VehicleCalculationRequest :=
  { make := "BYD", model := "Seal", year := 2024,
    vehicle_type := .electric, cif_value := 50000,
    country_of_origin := "China" }

/-- The ALCOHOL_RATES entry the spirits enum value resolves to. -/
theorem ratesGet_spirits : alcoholRatesGet (AlcoholType.value .spirits) =
    { hs_code := "2208.4010",
      hs_description := "Rum and spirits by distillation (Whisky, Vodka, Gin, Brandy)",
      import_duty_rate := 0, duty_per_proof_gallon := some 15,
      duty_type := "proof_gallon", requires_permit := true } := rfl

/-- The ALCOHOL_RATES entry the wine enum value resolves to. -/
theorem ratesGet_wine : alcoholRatesGet (AlcoholType.value .wine) =
    { hs_code := "2204.2190",
      hs_description := "Wine of fresh grapes (Claret, Shiraz, Port, Sherry)",
      import_duty_rate := 1/2, duty_type := "ad_valorem",
      requires_permit := false } := rfl

/-- Duty rate resolved for electric vehicles: 10 percent up to 50000,
25 percent above. -/
theorem rate_electric (cc : Option ℤ) (cif : ℚ) :
    (determine_vehicle_duty_rate .electric cc cif).1 =
      if cif ≤ 50000 then 1/10 else 1/4 := by
  by_cases h : cif ≤ 50000 <;>
    simp [determine_vehicle_duty_rate, VEHICLE_DUTY_RATES, resolveTiers,
      tierMatches, leMax, h]

/-- Duty rate resolved for hybrid vehicles: same tiers as electric. -/
theorem rate_hybrid (cc : Option ℤ) (cif : ℚ) :
    (determine_vehicle_duty_rate .hybrid cc cif).1 =
      if cif ≤ 50000 then 1/10 else 1/4 := by
  by_cases h : cif ≤ 50000 <;>
    simp [determine_vehicle_duty_rate, VEHICLE_DUTY_RATES, resolveTiers,
      tierMatches, leMax, h]

/-- Duty rate resolved for a gasoline vehicle with a declared engine
size, by engine band and the 50000 value threshold; a negative
displacement falls through to the silent default. -/
theorem rate_gasoline_some (cc : ℤ) (cif : ℚ) :
    (determine_vehicle_duty_rate .gasoline (some cc) cif).1 =
      if 0 ≤ (cc : ℚ) ∧ (cc : ℚ) < 1500 then 9/20
      else if 1500 ≤ (cc : ℚ) ∧ (cc : ℚ) < 2000 then
        (if cif ≤ 50000 then 9/20 else 13/20)
      else if 2000 ≤ (cc : ℚ) then 13/20
      else 13/20 := by
  by_cases h1 : 0 ≤ (cc : ℚ) ∧ (cc : ℚ) < 1500
  · simp [determine_vehicle_duty_rate, VEHICLE_DUTY_RATES, resolveTiers,
      tierMatches, leMax, ltMax, h1, h1.1, h1.2]
  · by_cases h2 : 1500 ≤ (cc : ℚ) ∧ (cc : ℚ) < 2000
    · have hn : ¬((cc : ℚ) < 1500) := by linarith [h2.1]
      by_cases hv : cif ≤ 50000
      · simp [determine_vehicle_duty_rate, VEHICLE_DUTY_RATES, resolveTiers,
          tierMatches, leMax, ltMax, h2.1, h2.2, hn, hv]
      · have hv2 : (50000 : ℚ) < cif := not_le.mp hv
        norm_num [determine_vehicle_duty_rate, VEHICLE_DUTY_RATES, resolveTiers,
          tierMatches, leMax, ltMax, h2.1, h2.2, hn, hv, hv2]
        simp
    · by_cases h3 : 2000 ≤ (cc : ℚ)
      · have hn15 : ¬((cc : ℚ) < 1500) := by linarith
        have hn20 : ¬((cc : ℚ) < 2000) := by linarith
        simp [determine_vehicle_duty_rate, VEHICLE_DUTY_RATES, resolveTiers,
          tierMatches, leMax, ltMax, h1, h2, h3, hn15, hn20]
      · have hneg : (cc : ℚ) < 0 := by
          by_contra hge
          push_neg at hge h1 h2
          have hc15 := h1 hge
          have hc20 := h2 hc15
          linarith
        have hn0 : ¬((0 : ℚ) ≤ (cc : ℚ)) := not_le.mpr hneg
        have hn15 : ¬((1500 : ℚ) ≤ (cc : ℚ)) := by linarith
        have hn20 : ¬((2000 : ℚ) ≤ (cc : ℚ)) := by linarith
        simp [determine_vehicle_duty_rate, VEHICLE_DUTY_RATES, resolveTiers,
          tierMatches, leMax, ltMax, h1, h2, h3, hn0, hn15, hn20]

/-- Duty rate resolved for a diesel vehicle with a declared engine size:
the same rates as gasoline. -/
theorem rate_diesel_some (cc : ℤ) (cif : ℚ) :
    (determine_vehicle_duty_rate .diesel (some cc) cif).1 =
      if 0 ≤ (cc : ℚ) ∧ (cc : ℚ) < 1500 then 9/20
      else if 1500 ≤ (cc : ℚ) ∧ (cc : ℚ) < 2000 then
        (if cif ≤ 50000 then 9/20 else 13/20)
      else if 2000 ≤ (cc : ℚ) then 13/20
      else 13/20 := by
  by_cases h1 : 0 ≤ (cc : ℚ) ∧ (cc : ℚ) < 1500
  · simp [determine_vehicle_duty_rate, VEHICLE_DUTY_RATES, resolveTiers,
      tierMatches, leMax, ltMax, h1, h1.1, h1.2]
  · by_cases h2 : 1500 ≤ (cc : ℚ) ∧ (cc : ℚ) < 2000
    · have hn : ¬((cc : ℚ) < 1500) := by linarith [h2.1]
      by_cases hv : cif ≤ 50000
      · simp [determine_vehicle_duty_rate, VEHICLE_DUTY_RATES, resolveTiers,
          tierMatches, leMax, ltMax, h2.1, h2.2, hn, hv]
      · have hv2 : (50000 : ℚ) < cif := not_le.mp hv
        norm_num [determine_vehicle_duty_rate, VEHICLE_DUTY_RATES, resolveTiers,
          tierMatches, leMax, ltMax, h2.1, h2.2, hn, hv, hv2]
        simp
    · by_cases h3 : 2000 ≤ (cc : ℚ)
      · have hn15 : ¬((cc : ℚ) < 1500) := by linarith
        have hn20 : ¬((cc : ℚ) < 2000) := by linarith
        simp [determine_vehicle_duty_rate, VEHICLE_DUTY_RATES, resolveTiers,
          tierMatches, leMax, ltMax, h1, h2, h3, hn15, hn20]
      · have hneg : (cc : ℚ) < 0 := by
          by_contra hge
          push_neg at hge h1 h2
          have hc15 := h1 hge
          have hc20 := h2 hc15
          linarith
        have hn0 : ¬((0 : ℚ) ≤ (cc : ℚ)) := not_le.mpr hneg
        have hn15 : ¬((1500 : ℚ) ≤ (cc : ℚ)) := by linarith
        have hn20 : ¬((2000 : ℚ) ≤ (cc : ℚ)) := by linarith
        simp [determine_vehicle_duty_rate, VEHICLE_DUTY_RATES, resolveTiers,
          tierMatches, leMax, ltMax, h1, h2, h3, hn0, hn15, hn20]

/-- Duty rate for gasoline with no declared engine size: the first tier
matches unconditionally. -/
theorem rate_gasoline_none (cif : ℚ) :
    (determine_vehicle_duty_rate .gasoline none cif).1 = 9/20 := by
  simp [determine_vehicle_duty_rate, VEHICLE_DUTY_RATES, resolveTiers,
    tierMatches, leMax, ltMax]

/-- Duty rate for diesel with no declared engine size. -/
theorem rate_diesel_none (cif : ℚ) :
    (determine_vehicle_duty_rate .diesel none cif).1 = 9/20 := by
  simp [determine_vehicle_duty_rate, VEHICLE_DUTY_RATES, resolveTiers,
    tierMatches, leMax, ltMax]

/-- Duty rate for commercial vehicles: always 65 percent (the weight keys
of the commercial tiers are never read, so the first tier matches for a
non-negative or absent displacement and the default supplies the same
rate otherwise). -/
theorem rate_commercial (cc : Option ℤ) (cif : ℚ) :
    (determine_vehicle_duty_rate .commercial cc cif).1 = 13/20 := by
  cases cc with
  | none =>
      simp [determine_vehicle_duty_rate, VEHICLE_DUTY_RATES, resolveTiers,
        tierMatches, leMax, ltMax]
  | some c =>
      by_cases h : (0 : ℚ) ≤ (c : ℚ) <;>
        simp [determine_vehicle_duty_rate, VEHICLE_DUTY_RATES, resolveTiers,
          tierMatches, leMax, ltMax, h]

/-- Every resolved duty rate is at least 10 percent. -/
theorem rate_ge_tenth (vt : VehicleType) (cc : Option ℤ) (cif : ℚ) :
    1/10 ≤ (determine_vehicle_duty_rate vt cc cif).1 := by
  cases vt with
  | electric => rw [rate_electric]; split_ifs <;> norm_num
  | hybrid => rw [rate_hybrid]; split_ifs <;> norm_num
  | gasoline =>
      cases cc with
      | none => rw [rate_gasoline_none]; norm_num
      | some c => rw [rate_gasoline_some]; split_ifs <;> norm_num
  | diesel =>
      cases cc with
      | none => rw [rate_diesel_none]; norm_num
      | some c => rw [rate_diesel_some]; split_ifs <;> norm_num
  | commercial => rw [rate_commercial]; norm_num

/-- The resolved duty rate is monotone in the CIF value (the engine size
and vehicle type held fixed): every value tier of the schedule charges the
higher rate above the threshold. -/
theorem rate_mono (vt : VehicleType) (cc : Option ℤ) (c₁ c₂ : ℚ)
    (h : c₁ ≤ c₂) :
    (determine_vehicle_duty_rate vt cc c₁).1 ≤
      (determine_vehicle_duty_rate vt cc c₂).1 := by
  cases vt with
  | electric =>
      rw [rate_electric, rate_electric]
      split_ifs <;> linarith
  | hybrid =>
      rw [rate_hybrid, rate_hybrid]
      split_ifs <;> linarith
  | gasoline =>
      cases cc with
      | none => rw [rate_gasoline_none, rate_gasoline_none]
      | some c =>
          rw [rate_gasoline_some, rate_gasoline_some]
          split_ifs <;> linarith
  | diesel =>
      cases cc with
      | none => rw [rate_diesel_none, rate_diesel_none]
      | some c =>
          rw [rate_diesel_some, rate_diesel_some]
          split_ifs <;> linarith
  | commercial => rw [rate_commercial, rate_commercial]

/-- The concession override never lowers the effective rate when the base
rate rises: the transform is monotone. -/
theorem applyConcession_rate_mono (q : Bool) (ct : Option String)
    (b₁ b₂ : ℚ) (h : b₁ ≤ b₂) :
    (applyConcession q ct b₁).1 ≤ (applyConcession q ct b₂).1 := by
  unfold applyConcession
  split_ifs <;> dsimp only <;>
    first
      | exact max_le_max (by linarith) le_rfl
      | exact le_rfl
      | exact h

/-- The concession override keeps the effective rate at or above the
10 percent floor whenever the base rate is. -/
theorem applyConcession_rate_ge (q : Bool) (ct : Option String) (b : ℚ)
    (hb : 1/10 ≤ b) :
    1/10 ≤ (applyConcession q ct b).1 := by
  unfold applyConcession
  split_ifs <;> dsimp only <;>
    first
      | exact le_max_right _ _
      | exact le_rfl
      | exact hb

/-- The concession override never raises the effective rate above the
base rate when the base rate is at or above the floor. -/
theorem applyConcession_rate_le (q : Bool) (ct : Option String) (b : ℚ)
    (hb : 1/10 ≤ b) :
    (applyConcession q ct b).1 ≤ b := by
  unfold applyConcession
  split_ifs <;> dsimp only <;>
    first
      | exact max_le (by linarith) hb
      | exact le_rfl
      | exact hb

/-- Value of applyConcession for the first-vehicle rule. -/
theorem applyConcession_first (b : ℚ) :
    applyConcession true (some "first_vehicle") b =
      (max (b - 1/5) (1/10), some b, true,
       ["Concessionary rate applied: First-time vehicle owner (reduced from "
          ++ pctString b ++ " to " ++ pctString (max (b - 1/5) (1/10)) ++ ")"]) := by
  simp [applyConcession]

/-- Value of applyConcession for the returning-resident rule. -/
theorem applyConcession_returning (b : ℚ) :
    applyConcession true (some "returning_resident") b =
      (max (b - 3/20) (1/10), some b, true,
       ["Concessionary rate applied: Returning resident (reduced from "
          ++ pctString b ++ " to " ++ pctString (max (b - 3/20) (1/10)) ++ ")"]) := by
  simp [applyConcession]

/-- Value of applyConcession for the disabled-person rule. -/
theorem applyConcession_disabled (b : ℚ) :
    applyConcession true (some "disabled") b =
      (1/10, some b, true,
       ["Concessionary rate applied: Disabled person exemption (10%)"]) := by
  simp [applyConcession]

/-- Value of applyConcession when the declaration qualifies but the
concession type matches no rule: no reduction is applied, yet the
original rate is already recorded. -/
theorem applyConcession_unmatched (ct : Option String) (b : ℚ)
    (h1 : ct ≠ some "first_vehicle") (h2 : ct ≠ some "returning_resident")
    (h3 : ct ≠ some "disabled") :
    applyConcession true ct b = (b, some b, false, []) := by
  simp [applyConcession, h1, h2, h3]

/-- Value of applyConcession when the declaration does not qualify. -/
theorem applyConcession_not_qualifying (ct : Option String) (b : ℚ) :
    applyConcession false ct b = (b, none, false, []) := by
  simp [applyConcession]

/-- The environmental levy is monotone in CIF value and import duty, the
year and flags held fixed. -/
theorem env_levy_mono (year : ℤ) (is_new is_antique : Bool)
    (c₁ c₂ d₁ d₂ : ℚ) (nt yr : ℤ) (hc : c₁ ≤ c₂) (hd : d₁ ≤ d₂) :
    (calculate_environmental_levy year is_new is_antique c₁ d₁ nt yr).1 ≤
      (calculate_environmental_levy year is_new is_antique c₂ d₂ nt yr).1 := by
  unfold calculate_environmental_levy
  dsimp only
  split_ifs <;> dsimp only <;>
    first
      | exact le_rfl
      | (unfold ENVIRONMENTAL_LEVY_OVER_10_YEARS; linarith)

/-- The processing fee is monotone in CIF value. -/
theorem processing_fee_mono (c₁ c₂ : ℚ) (h : c₁ ≤ c₂) :
    calculate_processing_fee c₁ ≤ calculate_processing_fee c₂ := by
  unfold calculate_processing_fee
  exact max_le_max le_rfl
    (min_le_min (by unfold PROCESSING_FEE_RATE; linarith) le_rfl)

/-- C1 counterexample: for a licensed wine import (CIF 100, one bottle,
license fee 50) the VAT of the returned breakdown is 15 = 10 percent of
(CIF + import duty + excise) and cannot be reconstructed as 10 percent of
(CIF + import duty + excise + fees): the alcohol license fee is computed
after VAT and is not part of its base. -/
theorem c1_vat_fee_counterexample :
    (calculate_alcohol_duties licensedWineReq "user" "calc" "ts").breakdown.license_fee
        = 50 ∧
    (calculate_alcohol_duties licensedWineReq "user" "calc" "ts").breakdown.vat ≠
      VAT_RATE *
        ((calculate_alcohol_duties licensedWineReq "user" "calc" "ts").breakdown.cif_value
          + (calculate_alcohol_duties licensedWineReq "user" "calc" "ts").breakdown.import_duty
          + (calculate_alcohol_duties licensedWineReq "user" "calc" "ts").breakdown.excise_duty
          + (calculate_alcohol_duties licensedWineReq "user" "calc" "ts").breakdown.license_fee) := by
  have h1 : round2 (15 : ℚ) = 15 := by unfold round2 roundHalfEven; norm_num
  have h2 : round2 (100 : ℚ) = 100 := by unfold round2 roundHalfEven; norm_num
  have h3 : round2 (50 : ℚ) = 50 := by unfold round2 roundHalfEven; norm_num
  have h4 : round2 (0 : ℚ) = 0 := by unfold round2 roundHalfEven; norm_num
  constructor <;>
    simp [calculate_alcohol_duties, alcoholCompute, licensedWineReq, ratesGet_wine,
      VAT_RATE, LICENSE_FEE_BASE, LITERS_TO_IMPERIAL_GALLON] <;>
    norm_num [h1, h2, h3, h4]

/-- C1 amended: the VAT of an alcohol calculation is 10 percent of
(CIF + import duty + excise duty) with the license fee excluded (it is
computed after VAT), and the VAT of a vehicle calculation is 10 percent of
(CIF + import duty + environmental levy + processing fee + tire levy);
neither is ever computed on CIF alone. -/
theorem c1_vat_base_amended :
    ∀ (ar : AlcoholCalculationRequest) (vr : VehicleCalculationRequest) (y : ℤ),
      (alcoholCompute ar).vat =
        (ar.cif_value + (alcoholCompute ar).import_duty
          + (alcoholCompute ar).excise_duty) * VAT_RATE ∧
      (vehicleCompute vr y).vat =
        (vr.cif_value + (vehicleCompute vr y).import_duty
          + (vehicleCompute vr y).environmental_levy
          + (vehicleCompute vr y).processing_fee
          + (vehicleCompute vr y).tire_levy) * VEHICLE_VAT_RATE := by
  intro ar vr y
  exact ⟨rfl, rfl⟩

/-- C3: evaluating the engine at the documented spirits scenario
(12 × 750 mL at 40 percent, CIF 540, proof-gallon type at 15 per proof
gallon, import duty 0): the code computes proof gallons
1.98 IG × (40 × 1.75) = 138.6 — one hundred times the published ≈ 1.386,
because the proof strength is used as a percent count rather than a
fraction — and a total landed cost of 2880.90, not the 1010.30 total the
duty guide shipped in the repository publishes for this same
consignment. -/
theorem c3_spirits_scenario_eval :
    (calculate_alcohol_duties spiritsScenarioReq "user" "calc" "ts").proof_gallons
        = some (693/5) ∧
    (calculate_alcohol_duties spiritsScenarioReq "user" "calc" "ts").import_duty = 0 ∧
    (calculate_alcohol_duties spiritsScenarioReq "user" "calc" "ts").excise_duty = 2079 ∧
    (calculate_alcohol_duties spiritsScenarioReq "user" "calc" "ts").total_landed_cost
        = 28809/10 := by
  have h1 : round4 (693/5 : ℚ) = 693/5 := by unfold round4 roundHalfEven; norm_num
  have h2 : round2 (2079 : ℚ) = 2079 := by unfold round2 roundHalfEven; norm_num
  have h3 : round2 (28809/10 : ℚ) = 28809/10 := by unfold round2 roundHalfEven; norm_num
  have h4 : round2 (0 : ℚ) = 0 := by unfold round2 roundHalfEven; norm_num
  refine ⟨?_, ?_, ?_, ?_⟩ <;>
    simp [calculate_alcohol_duties, alcoholCompute, spiritsScenarioReq, ratesGet_spirits,
      LITERS_TO_IMPERIAL_GALLON, ABV_TO_BRITISH_PROOF, VAT_RATE] <;>
    norm_num [h1, h2, h3, h4]

/-- C9: a gasoline vehicle of CIF 25000 with a 1200 cc engine resolves to
the small-engine tier at 45 percent and the import duty is
25000 × 0.45 = 11250, both in the computation and in the returned
record. -/
theorem c9_small_engine_gasoline :
    determine_vehicle_duty_rate .gasoline (some 1200) 25000 =
      (9/20, "Engine under 1.5L (1500cc)") ∧
    (vehicleCompute smallEngineReq 2025).import_duty = 11250 ∧
    (calculate_vehicle_duties smallEngineReq 2025 "user" "calc" "ts").import_duty
        = 11250 := by
  have hdet : determine_vehicle_duty_rate .gasoline (some 1200) 25000 =
      (9/20, "Engine under 1.5L (1500cc)") := by
    norm_num [determine_vehicle_duty_rate, VEHICLE_DUTY_RATES, resolveTiers,
      tierMatches, leMax, ltMax]
  have h1 : round2 (11250 : ℚ) = 11250 := by unfold round2 roundHalfEven; norm_num
  refine ⟨hdet, ?_, ?_⟩ <;>
    norm_num [calculate_vehicle_duties, vehicleCompute, smallEngineReq,
      applyConcession, hdet, h1]

/-- C2 counterexample: a gasoline declaration with engine displacement
-100 cc matches no tier predicate, yet the resolver returns the silent
default (0.65, "Default rate") instead of failing closed, and the handler
still produces a complete breakdown priced at that default rate. -/
theorem c2_silent_default_counterexample :
    determine_vehicle_duty_rate .gasoline (some (-100)) 25000 =
      (13/20, "Default rate") ∧
    (calculate_vehicle_duties coverageGapReq 2025 "user" "calc" "ts").duty_rate
        = 13/20 ∧
    (calculate_vehicle_duties coverageGapReq 2025 "user" "calc" "ts").breakdown.total
        = 45925 := by
  have hdet : determine_vehicle_duty_rate .gasoline (some (-100)) 25000 =
      (13/20, "Default rate") := by
    norm_num [determine_vehicle_duty_rate, VEHICLE_DUTY_RATES, resolveTiers,
      tierMatches, leMax, ltMax]
    simp
  have h3 : round2 (45925 : ℚ) = 45925 := by unfold round2 roundHalfEven; norm_num
  refine ⟨hdet, ?_, ?_⟩ <;>
    norm_num [calculate_vehicle_duties, vehicleCompute, coverageGapReq,
      applyConcession, hdet, calculate_processing_fee, calculate_environmental_levy,
      PROCESSING_FEE_RATE, PROCESSING_FEE_MIN, PROCESSING_FEE_MAX,
      ENVIRONMENTAL_LEVY_NEW, VEHICLE_VAT_RATE, h3]

/-- C2 amended: on a coverage gap of the gasoline schedule (any negative
declared displacement, for every CIF value) the tier resolver does not
fail closed: it silently returns the default rate 0.65 labelled
"Default rate", and the calculation proceeds to a full breakdown. -/
theorem c2_silent_default_amended (cc : ℤ) (cif : ℚ) (h : cc < 0) :
    determine_vehicle_duty_rate .gasoline (some cc) cif =
      (13/20, "Default rate") := by
  have hneg : (cc : ℚ) < 0 := by exact_mod_cast h
  have hn0 : ¬((0 : ℚ) ≤ (cc : ℚ)) := not_le.mpr hneg
  have hn15 : ¬((1500 : ℚ) ≤ (cc : ℚ)) := by linarith
  have hn20 : ¬((2000 : ℚ) ≤ (cc : ℚ)) := by linarith
  simp [determine_vehicle_duty_rate, VEHICLE_DUTY_RATES, resolveTiers,
    tierMatches, leMax, ltMax, hn0, hn15, hn20]

/-- C2 amended witness: instance of the amended claim at -50 cc and CIF
30000. -/
theorem c2_silent_default_amended_witness :
    (-50 : ℤ) < 0 ∧
    determine_vehicle_duty_rate .gasoline (some (-50)) 30000 =
      (13/20, "Default rate") :=
  ⟨by norm_num, c2_silent_default_amended (-50) 30000 (by norm_num)⟩

/-- C4 counterexample: a request with quantity -5 and strength 150 percent
passes the request-model validation unchanged (only the category is
checked), and the engine computes a complete breakdown from it (total
165 = 100 CIF + 50 duty + 15 VAT) instead of rejecting before
calculation. -/
theorem c4_validation_counterexample :
    validateAlcoholRequest malformedRawReq = Except.ok malformedReq ∧
    malformedReq.quantity = -5 ∧
    malformedReq.alcohol_percentage = 150 ∧
    (calculate_alcohol_duties malformedReq "user" "calc" "ts").breakdown.total
        = 165 := by
  have h1 : round2 (165 : ℚ) = 165 := by unfold round2 roundHalfEven; norm_num
  refine ⟨rfl, rfl, rfl, ?_⟩
  simp [calculate_alcohol_duties, alcoholCompute, malformedReq, ratesGet_wine,
    VAT_RATE, LITERS_TO_IMPERIAL_GALLON]
  norm_num [h1]

/-- C4 amended: the request-model validation rejects exactly the requests
whose category string is outside the AlcoholType enum, with a structured
error naming the alcohol_type field; every other request — including one
with a negative quantity or a strength outside [0, 100] — is accepted
with all numeric fields passed through unvalidated, and the engine
computes a breakdown from it. -/
theorem c4_validation_amended (raw : RawAlcoholRequest) :
    (parseAlcoholType raw.alcohol_type = none ∧
       validateAlcoholRequest raw = Except.error "alcohol_type") ∨
    (∃ req, validateAlcoholRequest raw = Except.ok req ∧
       req.quantity = raw.quantity ∧
       req.alcohol_percentage = raw.alcohol_percentage ∧
       req.volume_ml = raw.volume_ml ∧ req.cif_value = raw.cif_value) := by
  cases hp : parseAlcoholType raw.alcohol_type with
  | none =>
      left
      exact ⟨rfl, by simp [validateAlcoholRequest, hp]⟩
  | some t =>
      right
      exact ⟨{ product_name := raw.product_name, alcohol_type := t,
               volume_ml := raw.volume_ml,
               alcohol_percentage := raw.alcohol_percentage,
               quantity := raw.quantity, cif_value := raw.cif_value,
               country_of_origin := raw.country_of_origin,
               brand_label := raw.brand_label,
               has_liquor_license := raw.has_liquor_license },
             by simp [validateAlcoholRequest, hp], rfl, rfl, rfl, rfl⟩

/-- C8: with is_antique set, whatever the model year and reference year,
the environmental levy is the flat 200 antique amount and the age-based
20 percent levy is bypassed. -/
theorem c8_antique_levy (req : VehicleCalculationRequest) (y : ℤ)
    (h : req.is_antique = true) :
    (vehicleCompute req y).environmental_levy = 200 ∧
    (vehicleCompute req y).levy_description =
      "Antique/Vintage Vehicle ($200 flat)" := by
  have hlev : (vehicleCompute req y).environmental_levy =
      (calculate_environmental_levy req.year req.is_new req.is_antique
        req.cif_value ((vehicleCompute req y).import_duty) req.num_tires y).1 := rfl
  have hdesc : (vehicleCompute req y).levy_description =
      (calculate_environmental_levy req.year req.is_new req.is_antique
        req.cif_value ((vehicleCompute req y).import_duty) req.num_tires y).2.1 := rfl
  rw [hlev, hdesc]
  constructor <;> simp [calculate_environmental_levy, h, ENVIRONMENTAL_LEVY_ANTIQUE]

/-- C8 witness: the antique declaration of model year 1930 (95 years old
at a 2025 reference year) is levied the flat 200, not the age-based
20 percent. -/
theorem c8_antique_levy_witness :
    antiqueReq.is_antique = true ∧
    (vehicleCompute antiqueReq 2025).environmental_levy = 200 ∧
    (vehicleCompute antiqueReq 2025).levy_description =
      "Antique/Vintage Vehicle ($200 flat)" :=
  ⟨rfl, (c8_antique_levy antiqueReq 2025 rfl).1, (c8_antique_levy antiqueReq 2025 rfl).2⟩

/-- The effective duty rate of a vehicle calculation is the concession
transform of the resolved base rate. -/
theorem vehicleCompute_rate_eq (req : VehicleCalculationRequest) (y : ℤ) :
    (vehicleCompute req y).duty_rate =
      (applyConcession req.qualifies_for_concession req.concession_type
        (determine_vehicle_duty_rate req.vehicle_type req.engine_size_cc
          req.cif_value).1).1 := rfl

/-- The concessionary_applied flag of a vehicle calculation. -/
theorem vehicleCompute_applied_eq (req : VehicleCalculationRequest) (y : ℤ) :
    (vehicleCompute req y).concessionary_applied =
      (applyConcession req.qualifies_for_concession req.concession_type
        (determine_vehicle_duty_rate req.vehicle_type req.engine_size_cc
          req.cif_value).1).2.2.1 := rfl

/-- The retained pre-override rate of a vehicle calculation. -/
theorem vehicleCompute_original_eq (req : VehicleCalculationRequest) (y : ℤ) :
    (vehicleCompute req y).original_duty_rate =
      (applyConcession req.qualifies_for_concession req.concession_type
        (determine_vehicle_duty_rate req.vehicle_type req.engine_size_cc
          req.cif_value).1).2.1 := rfl

/-- The savings of a vehicle calculation, in terms of the concession
outcome. -/
theorem vehicleCompute_savings_eq (req : VehicleCalculationRequest) (y : ℤ) :
    (vehicleCompute req y).savings =
      (match (applyConcession req.qualifies_for_concession req.concession_type
          (determine_vehicle_duty_rate req.vehicle_type req.engine_size_cc
            req.cif_value).1).2.1 with
       | some o =>
           if (applyConcession req.qualifies_for_concession req.concession_type
                (determine_vehicle_duty_rate req.vehicle_type req.engine_size_cc
                  req.cif_value).1).2.2.1 = true ∧ o ≠ 0 then
             some (req.cif_value * o - (vehicleCompute req y).import_duty)
           else none
       | none => none) := rfl

/-- The import duty of a vehicle calculation is CIF times the effective
rate. -/
theorem vehicleCompute_import_eq (req : VehicleCalculationRequest) (y : ℤ) :
    (vehicleCompute req y).import_duty =
      req.cif_value * (vehicleCompute req y).duty_rate := rfl

/-- The levy of a vehicle calculation comes from
calculate_environmental_levy. -/
theorem vehicleCompute_levy_eq (req : VehicleCalculationRequest) (y : ℤ) :
    (vehicleCompute req y).environmental_levy =
      (calculate_environmental_levy req.year req.is_new req.is_antique
        req.cif_value ((vehicleCompute req y).import_duty)
        req.num_tires y).1 := rfl

/-- The processing fee of a vehicle calculation. -/
theorem vehicleCompute_fee_eq (req : VehicleCalculationRequest) (y : ℤ) :
    (vehicleCompute req y).processing_fee =
      calculate_processing_fee req.cif_value := rfl

/-- The tire levy of a vehicle calculation is independent of the CIF
value. -/
theorem vehicleCompute_tire_eq (req : VehicleCalculationRequest) (y : ℤ) :
    (vehicleCompute req y).tire_levy =
      if ¬req.is_new ∧ 0 < req.num_tires then
        (req.num_tires : ℚ) * TIRE_LEVY_PER_TIRE
      else 0 := rfl

/-- The landed cost of a vehicle calculation is the sum of CIF, duty,
levy, fee and tire levy. -/
theorem vehicleCompute_landed_eq (req : VehicleCalculationRequest) (y : ℤ) :
    (vehicleCompute req y).landed_cost =
      req.cif_value + (vehicleCompute req y).import_duty
        + (vehicleCompute req y).environmental_levy
        + (vehicleCompute req y).processing_fee
        + (vehicleCompute req y).tire_levy := rfl

/-- The total landed cost of a vehicle calculation is the landed cost
plus VAT on it. -/
theorem vehicleCompute_total_eq (req : VehicleCalculationRequest) (y : ℤ) :
    (vehicleCompute req y).total_landed_cost =
      (vehicleCompute req y).landed_cost
        + (vehicleCompute req y).landed_cost * VEHICLE_VAT_RATE := rfl

/-- The returned record carries the computed concession flag. -/
theorem record_applied_eq (req : VehicleCalculationRequest) (y : ℤ)
    (u i t : String) :
    (calculate_vehicle_duties req y u i t).concessionary_applied =
      (vehicleCompute req y).concessionary_applied := rfl

/-- The returned record carries the computed pre-override rate
unrounded. -/
theorem record_original_eq (req : VehicleCalculationRequest) (y : ℤ)
    (u i t : String) :
    (calculate_vehicle_duties req y u i t).original_duty_rate =
      (vehicleCompute req y).original_duty_rate := rfl

/-- The returned record rounds a truthy savings value and omits a zero or
absent one. -/
theorem record_savings_eq (req : VehicleCalculationRequest) (y : ℤ)
    (u i t : String) :
    (calculate_vehicle_duties req y u i t).savings =
      (match (vehicleCompute req y).savings with
       | some s => if s ≠ 0 then some (round2 s) else none
       | none => none) := rfl

/-- C5: when a recognized concession applies to a declaration with a
non-negative CIF value, the effective rate never falls below the declared
10 percent floor, the pre-override base rate is retained, and the
reported savings equals baseline duty minus effective duty and is
non-negative. -/
theorem c5_concession_floor_and_savings (req : VehicleCalculationRequest)
    (y : ℤ) (hq : req.qualifies_for_concession = true)
    (hct : req.concession_type = some "first_vehicle" ∨
      req.concession_type = some "returning_resident" ∨
      req.concession_type = some "disabled")
    (hcif : 0 ≤ req.cif_value) :
    (vehicleCompute req y).concessionary_applied = true ∧
    1/10 ≤ (vehicleCompute req y).duty_rate ∧
    (vehicleCompute req y).original_duty_rate =
      some (determine_vehicle_duty_rate req.vehicle_type req.engine_size_cc
        req.cif_value).1 ∧
    (vehicleCompute req y).savings =
      some (req.cif_value *
          (determine_vehicle_duty_rate req.vehicle_type req.engine_size_cc
            req.cif_value).1
        - (vehicleCompute req y).import_duty) ∧
    0 ≤ req.cif_value *
          (determine_vehicle_duty_rate req.vehicle_type req.engine_size_cc
            req.cif_value).1
        - (vehicleCompute req y).import_duty := by
  have hbge : 1/10 ≤ (determine_vehicle_duty_rate req.vehicle_type
      req.engine_size_cc req.cif_value).1 :=
    rate_ge_tenth req.vehicle_type req.engine_size_cc req.cif_value
  have hbne : (determine_vehicle_duty_rate req.vehicle_type
      req.engine_size_cc req.cif_value).1 ≠ 0 := by
    intro h0
    rw [h0] at hbge
    norm_num at hbge
  have hele : (vehicleCompute req y).duty_rate ≤
      (determine_vehicle_duty_rate req.vehicle_type req.engine_size_cc
        req.cif_value).1 := by
    rw [vehicleCompute_rate_eq]
    exact applyConcession_rate_le _ _ _ hbge
  have hege : 1/10 ≤ (vehicleCompute req y).duty_rate := by
    rw [vehicleCompute_rate_eq]
    exact applyConcession_rate_ge _ _ _ hbge
  have hsav0 : 0 ≤ req.cif_value *
      (determine_vehicle_duty_rate req.vehicle_type req.engine_size_cc
        req.cif_value).1 - (vehicleCompute req y).import_duty := by
    rw [vehicleCompute_import_eq]
    have h1 : 0 ≤ req.cif_value *
        ((determine_vehicle_duty_rate req.vehicle_type req.engine_size_cc
          req.cif_value).1 - (vehicleCompute req y).duty_rate) :=
      mul_nonneg hcif (by linarith)
    nlinarith [h1]
  have happl : (vehicleCompute req y).concessionary_applied = true := by
    rw [vehicleCompute_applied_eq, hq]
    rcases hct with h | h | h <;>
      rw [h] <;>
      simp [applyConcession_first, applyConcession_returning,
        applyConcession_disabled]
  have horig : (vehicleCompute req y).original_duty_rate =
      some (determine_vehicle_duty_rate req.vehicle_type req.engine_size_cc
        req.cif_value).1 := by
    rw [vehicleCompute_original_eq, hq]
    rcases hct with h | h | h <;>
      rw [h] <;>
      simp [applyConcession_first, applyConcession_returning,
        applyConcession_disabled]
  have hsav : (vehicleCompute req y).savings =
      some (req.cif_value *
          (determine_vehicle_duty_rate req.vehicle_type req.engine_size_cc
            req.cif_value).1
        - (vehicleCompute req y).import_duty) := by
    rw [vehicleCompute_savings_eq, vehicleCompute_import_eq, hq]
    rcases hct with h | h | h <;>
      rw [h] <;>
      simp [applyConcession_first, applyConcession_returning,
        applyConcession_disabled, hbne, vehicleCompute_rate_eq, hq, h]
  exact ⟨happl, hege, horig, hsav, hsav0⟩

/-- C5 witness: the first-vehicle concession on an electric vehicle of
CIF 60000 (base rate 25 percent): the floor holds, the baseline is
retained and the savings is non-negative. -/
theorem c5_concession_floor_and_savings_witness :
    concessionReq.qualifies_for_concession = true ∧
    0 ≤ concessionReq.cif_value ∧
    ((vehicleCompute concessionReq 2025).concessionary_applied = true ∧
     1/10 ≤ (vehicleCompute concessionReq 2025).duty_rate ∧
     (vehicleCompute concessionReq 2025).original_duty_rate =
       some (determine_vehicle_duty_rate concessionReq.vehicle_type
         concessionReq.engine_size_cc concessionReq.cif_value).1 ∧
     (vehicleCompute concessionReq 2025).savings =
       some (concessionReq.cif_value *
           (determine_vehicle_duty_rate concessionReq.vehicle_type
             concessionReq.engine_size_cc concessionReq.cif_value).1
         - (vehicleCompute concessionReq 2025).import_duty) ∧
     0 ≤ concessionReq.cif_value *
           (determine_vehicle_duty_rate concessionReq.vehicle_type
             concessionReq.engine_size_cc concessionReq.cif_value).1
         - (vehicleCompute concessionReq 2025).import_duty) :=
  ⟨rfl, by norm_num [concessionReq],
   c5_concession_floor_and_savings concessionReq 2025 rfl (Or.inl rfl)
     (by norm_num [concessionReq])⟩

/-- C10: when qualifies_for_concession is set but the concession type is
unrecognized (or absent), no reduction is applied — the returned record
has concessionary_applied false and savings null — yet original_duty_rate
is populated with the base rate instead of being null. -/
theorem c10_unmatched_concession (req : VehicleCalculationRequest) (y : ℤ)
    (u i t : String) (hq : req.qualifies_for_concession = true)
    (h1 : req.concession_type ≠ some "first_vehicle")
    (h2 : req.concession_type ≠ some "returning_resident")
    (h3 : req.concession_type ≠ some "disabled") :
    (calculate_vehicle_duties req y u i t).concessionary_applied = false ∧
    (calculate_vehicle_duties req y u i t).savings = none ∧
    (calculate_vehicle_duties req y u i t).original_duty_rate =
      some (determine_vehicle_duty_rate req.vehicle_type req.engine_size_cc
        req.cif_value).1 ∧
    (calculate_vehicle_duties req y u i t).duty_rate =
      (determine_vehicle_duty_rate req.vehicle_type req.engine_size_cc
        req.cif_value).1 := by
  have hA := applyConcession_unmatched req.concession_type
    (determine_vehicle_duty_rate req.vehicle_type req.engine_size_cc
      req.cif_value).1 h1 h2 h3
  refine ⟨?_, ?_, ?_, ?_⟩
  · rw [record_applied_eq, vehicleCompute_applied_eq, hq, hA]
  · rw [record_savings_eq, vehicleCompute_savings_eq, hq, hA]
    simp
  · rw [record_original_eq, vehicleCompute_original_eq, hq, hA]
  · have hr : (calculate_vehicle_duties req y u i t).duty_rate =
        (vehicleCompute req y).duty_rate := rfl
    rw [hr, vehicleCompute_rate_eq, hq, hA]

/-- C10 witness: a qualifying declaration with a null concession type:
applied is false, savings is null, and original_duty_rate carries the
base rate. -/
theorem c10_unmatched_concession_witness :
    unknownConcessionReq.qualifies_for_concession = true ∧
    ((calculate_vehicle_duties unknownConcessionReq 2025 "user" "calc" "ts").concessionary_applied
        = false ∧
     (calculate_vehicle_duties unknownConcessionReq 2025 "user" "calc" "ts").savings = none ∧
     (calculate_vehicle_duties unknownConcessionReq 2025 "user" "calc" "ts").original_duty_rate =
       some (determine_vehicle_duty_rate unknownConcessionReq.vehicle_type
         unknownConcessionReq.engine_size_cc unknownConcessionReq.cif_value).1 ∧
     (calculate_vehicle_duties unknownConcessionReq 2025 "user" "calc" "ts").duty_rate =
       (determine_vehicle_duty_rate unknownConcessionReq.vehicle_type
         unknownConcessionReq.engine_size_cc unknownConcessionReq.cif_value).1) :=
  ⟨rfl,
   c10_unmatched_concession unknownConcessionReq 2025 "user" "calc" "ts" rfl
     (by simp [unknownConcessionReq]) (by simp [unknownConcessionReq])
     (by simp [unknownConcessionReq])⟩

/-- C6 counterexample: two runs on the same declaration are not
byte-identical — the record embeds the per-run uuid4 id (and timestamp),
so records produced with distinct fresh ids differ — and the computation
depends on the wall-clock year: the 2016 vehicle is levied the flat 250
at reference year 2025 (age 9) but 20 percent of CIF plus duty, 2900, at
reference year 2036 (age 20). -/
theorem c6_determinism_counterexample :
    calculate_vehicle_duties agingReq 2025 "user" "calc-id-a" "ts" ≠
      calculate_vehicle_duties agingReq 2025 "user" "calc-id-b" "ts" ∧
    (vehicleCompute agingReq 2025).environmental_levy = 250 ∧
    (vehicleCompute agingReq 2036).environmental_levy = 2900 := by
  have hdet : determine_vehicle_duty_rate .gasoline (some 1200) 10000 =
      (9/20, "Engine under 1.5L (1500cc)") := by
    norm_num [determine_vehicle_duty_rate, VEHICLE_DUTY_RATES, resolveTiers,
      tierMatches, leMax, ltMax]
  refine ⟨?_, ?_, ?_⟩
  · intro h
    have h2 := congrArg VehicleCalculationRecord.id h
    simp [calculate_vehicle_duties] at h2
  · norm_num [vehicleCompute, agingReq, applyConcession, hdet,
      calculate_environmental_levy, ENVIRONMENTAL_LEVY_NEW]
  · norm_num [vehicleCompute, agingReq, applyConcession, hdet,
      calculate_environmental_levy, ENVIRONMENTAL_LEVY_OVER_10_YEARS]

/-- C6 amended: with the wall-clock year held fixed, the calculation is a
pure function of the declaration: two runs differ only in the freshly
generated record id and created_at timestamp, and agree on every other
field once those two are blanked. -/
theorem c6_determinism_amended (req : VehicleCalculationRequest) (y : ℤ)
    (u i₁ t₁ i₂ t₂ : String) :
    stripFreshFields (calculate_vehicle_duties req y u i₁ t₁) =
      stripFreshFields (calculate_vehicle_duties req y u i₂ t₂) := rfl

/-- C7: the total landed cost of a vehicle calculation is monotone in the
CIF value (all other declaration fields held fixed), across every tier
threshold: the resolved rate, the import duty, the levy and the clamped
processing fee are each monotone, and VAT scales the monotone landed
cost. -/
theorem c7_total_monotone_in_cif (req : VehicleCalculationRequest) (y : ℤ)
    (c₁ c₂ : ℚ) (h0 : 0 ≤ c₁) (h12 : c₁ ≤ c₂) :
    (vehicleCompute { req with cif_value := c₁ } y).total_landed_cost ≤
      (vehicleCompute { req with cif_value := c₂ } y).total_landed_cost := by
  have hrate1 : (vehicleCompute { req with cif_value := c₁ } y).duty_rate =
      (applyConcession req.qualifies_for_concession req.concession_type
        (determine_vehicle_duty_rate req.vehicle_type req.engine_size_cc c₁).1).1 := rfl
  have hrate2 : (vehicleCompute { req with cif_value := c₂ } y).duty_rate =
      (applyConcession req.qualifies_for_concession req.concession_type
        (determine_vehicle_duty_rate req.vehicle_type req.engine_size_cc c₂).1).1 := rfl
  have hrm : (vehicleCompute { req with cif_value := c₁ } y).duty_rate ≤
      (vehicleCompute { req with cif_value := c₂ } y).duty_rate := by
    rw [hrate1, hrate2]
    exact applyConcession_rate_mono _ _ _ _
      (rate_mono req.vehicle_type req.engine_size_cc c₁ c₂ h12)
  have hrge : 1/10 ≤ (vehicleCompute { req with cif_value := c₁ } y).duty_rate := by
    rw [hrate1]
    exact applyConcession_rate_ge _ _ _
      (rate_ge_tenth req.vehicle_type req.engine_size_cc c₁)
  have himp1 : (vehicleCompute { req with cif_value := c₁ } y).import_duty =
      c₁ * (vehicleCompute { req with cif_value := c₁ } y).duty_rate := rfl
  have himp2 : (vehicleCompute { req with cif_value := c₂ } y).import_duty =
      c₂ * (vehicleCompute { req with cif_value := c₂ } y).duty_rate := rfl
  have hd : (vehicleCompute { req with cif_value := c₁ } y).import_duty ≤
      (vehicleCompute { req with cif_value := c₂ } y).import_duty := by
    rw [himp1, himp2]
    exact mul_le_mul h12 hrm (by linarith) (by linarith)
  have hlevy1 : (vehicleCompute { req with cif_value := c₁ } y).environmental_levy =
      (calculate_environmental_levy req.year req.is_new req.is_antique c₁
        ((vehicleCompute { req with cif_value := c₁ } y).import_duty)
        req.num_tires y).1 := rfl
  have hlevy2 : (vehicleCompute { req with cif_value := c₂ } y).environmental_levy =
      (calculate_environmental_levy req.year req.is_new req.is_antique c₂
        ((vehicleCompute { req with cif_value := c₂ } y).import_duty)
        req.num_tires y).1 := rfl
  have hlev : (vehicleCompute { req with cif_value := c₁ } y).environmental_levy ≤
      (vehicleCompute { req with cif_value := c₂ } y).environmental_levy := by
    rw [hlevy1, hlevy2]
    exact env_levy_mono req.year req.is_new req.is_antique c₁ c₂ _ _
      req.num_tires y h12 hd
  have hfee1 : (vehicleCompute { req with cif_value := c₁ } y).processing_fee =
      calculate_processing_fee c₁ := rfl
  have hfee2 : (vehicleCompute { req with cif_value := c₂ } y).processing_fee =
      calculate_processing_fee c₂ := rfl
  have hfe : (vehicleCompute { req with cif_value := c₁ } y).processing_fee ≤
      (vehicleCompute { req with cif_value := c₂ } y).processing_fee := by
    rw [hfee1, hfee2]
    exact processing_fee_mono c₁ c₂ h12
  have hti : (vehicleCompute { req with cif_value := c₁ } y).tire_levy =
      (vehicleCompute { req with cif_value := c₂ } y).tire_levy := rfl
  have hland1 : (vehicleCompute { req with cif_value := c₁ } y).landed_cost =
      c₁ + (vehicleCompute { req with cif_value := c₁ } y).import_duty
        + (vehicleCompute { req with cif_value := c₁ } y).environmental_levy
        + (vehicleCompute { req with cif_value := c₁ } y).processing_fee
        + (vehicleCompute { req with cif_value := c₁ } y).tire_levy := rfl
  have hland2 : (vehicleCompute { req with cif_value := c₂ } y).landed_cost =
      c₂ + (vehicleCompute { req with cif_value := c₂ } y).import_duty
        + (vehicleCompute { req with cif_value := c₂ } y).environmental_levy
        + (vehicleCompute { req with cif_value := c₂ } y).processing_fee
        + (vehicleCompute { req with cif_value := c₂ } y).tire_levy := rfl
  have hla : (vehicleCompute { req with cif_value := c₁ } y).landed_cost ≤
      (vehicleCompute { req with cif_value := c₂ } y).landed_cost := by
    rw [hland1, hland2, hti]
    linarith
  have htot1 : (vehicleCompute { req with cif_value := c₁ } y).total_landed_cost =
      (vehicleCompute { req with cif_value := c₁ } y).landed_cost
        + (vehicleCompute { req with cif_value := c₁ } y).landed_cost
          * VEHICLE_VAT_RATE := rfl
  have htot2 : (vehicleCompute { req with cif_value := c₂ } y).total_landed_cost =
      (vehicleCompute { req with cif_value := c₂ } y).landed_cost
        + (vehicleCompute { req with cif_value := c₂ } y).landed_cost
          * VEHICLE_VAT_RATE := rfl
  rw [htot1, htot2]
  unfold VEHICLE_VAT_RATE
  linarith

/-- C7 witness: an electric declaration priced one dollar on each side of
the 50000 tier threshold (rate 10 percent below, 25 percent above): the
total landed cost does not decrease. -/
theorem c7_total_monotone_in_cif_witness :
    (0 : ℚ) ≤ 50000 ∧ (50000 : ℚ) ≤ 50001 ∧
    (vehicleCompute { thresholdReq with cif_value := 50000 } 2025).total_landed_cost ≤
      (vehicleCompute { thresholdReq with cif_value := 50001 } 2025).total_landed_cost :=
  ⟨by norm_num, by norm_num,
   c7_total_monotone_in_cif thresholdReq 2025 50000 50001 (by norm_num) (by norm_num)⟩

end BClass
